import Mathlib

/-!
Shallow embedding of src/krx62.c (hwmon driver for NZXT Kraken X42/X52/X62/X72)
and verification of the spec claims about it.

The embedded pieces are:
 * `DeviceData`       — struct krx62_device_data (the sensor fields)
 * `krx62_is_visible` — lines 23-28
 * `krx62_read`       — lines 30-46
 * `krx62_read_string`— lines 55-70
 * `krx62_info`       — lines 80-84
 * `krx62_raw_event`  — lines 101-119
 * `initState`        — the devm_kzalloc zero-initialization in krx62_probe (line 137)
-/

namespace Krx62

/-- Model of u8: a byte. -/
abbrev Byte := Fin 256

/-- struct krx62_device_data (src/krx62.c lines 15-21), restricted to the fields
the decoder and the hwmon accessors use.  `temp_input` and the entries of
`fan_input` model C `long`; `fan_input` models `long fan_input[2]` as a list
(of length 2 in every reachable state). -/
structure DeviceData where
  temp_input : Int
  fan_input : List Int
deriving DecidableEq, Repr

/-- The errno constant EINVAL; the source returns -EINVAL. -/
def EINVAL : Int := 22

/-- enum hwmon_sensor_types from the hwmon framework header: the dispatch tag
of krx62_read and krx62_read_string.  `in_volt` stands for hwmon_in. -/
inductive HwmonSensorTypes
  | chip | temp | in_volt | curr | power | energy | humidity | fan | pwm | intrusion
deriving DecidableEq, Repr

/-- Result of a hwmon accessor call: `ok v` models return 0 with the out
parameter set to `v`, `err e` models a nonzero error return, and `oob` marks an
out-of-bounds C array access (undefined behavior in the source: no value and no
errno is defined there). -/
inductive ReadResult (α : Type)
  | ok (val : α)
  | err (errno : Int)
  | oob
deriving DecidableEq, Repr

/-- krx62_is_visible (src/krx62.c lines 23-28): unconditionally returns the
read-only mode 0444. -/
def krx62_is_visible (ty : HwmonSensorTypes) (attr : Nat) (channel : Nat) : Nat :=
  0o444

/-- krx62_read (src/krx62.c lines 30-46).  `hwmon_temp` reads `temp_input`
(the channel argument is not consulted), `hwmon_fan` reads
`fan_input[channel]` with no bounds check (an index outside the array is an
out-of-bounds access, rendered `oob`), and every other type returns -EINVAL. -/
def krx62_read (ldata : DeviceData) (ty : HwmonSensorTypes) (attr : Nat)
    (channel : Nat) : ReadResult Int :=
  match ty with
  | .temp => .ok ldata.temp_input
  | .fan =>
    match ldata.fan_input.get? channel with
    | some v => .ok v
    | none => .oob
  | _ => .err (-EINVAL)

/-- KRX62_TEMP_LABEL (src/krx62.c line 48). -/
def KRX62_TEMP_LABEL : String := "Coolant"

/-- krx62_fan_label (src/krx62.c lines 50-53). -/
def krx62_fan_label : List String := ["Fans", "Pump"]

/-- krx62_read_string (src/krx62.c lines 55-70): label accessor, same dispatch
shape as krx62_read, again with no bounds check on the fan label array. -/
def krx62_read_string (ty : HwmonSensorTypes) (attr : Nat)
    (channel : Nat) : ReadResult String :=
  match ty with
  | .temp => .ok KRX62_TEMP_LABEL
  | .fan =>
    match krx62_fan_label.get? channel with
    | some s => .ok s
    | none => .oob
  | _ => .err (-EINVAL)

/-- An attribute bit of a hwmon channel config word (HWMON_T_INPUT,
HWMON_T_LABEL, HWMON_F_INPUT, HWMON_F_LABEL). -/
inductive HwmonAttrBit
  | input | label
deriving DecidableEq, Repr

/-- One struct hwmon_channel_info: a sensor type together with one config word
per channel of that type. -/
structure HwmonChannelInfo where
  ty : HwmonSensorTypes
  config : List (List HwmonAttrBit)
deriving DecidableEq, Repr

/-- krx62_info (src/krx62.c lines 80-84): HWMON_CHANNEL_INFO(temp, input|label)
followed by HWMON_CHANNEL_INFO(fan, input|label, input|label); the trailing
NULL terminator of the C array is the end of the list. -/
def krx62_info : List HwmonChannelInfo :=
  [ ⟨.temp, [[.input, .label]]⟩,
    ⟨.fan, [[.input, .label], [.input, .label]]⟩ ]

/-- The (type, channel index) pairs the compiled-in table declares: one channel
per config word of each hwmon_channel_info entry. -/
def declaredChannels : List (HwmonSensorTypes × Nat) :=
  krx62_info.bind (fun ci => (List.range ci.config.length).map (fun i => (ci.ty, i)))

/-- STATUS_REPORT_ID (src/krx62.c line 94). -/
def STATUS_REPORT_ID : Nat := 4

/-- STATUS_MIN_BYTES (src/krx62.c line 95). -/
def STATUS_MIN_BYTES : Nat := 16

/-- Byte `i` of the raw report buffer. -/
def byteAt (data : List Byte) (i : Nat) : Byte :=
  data.getD i 0

/-- be16_to_cpup on the two bytes `hi`, `lo`: big-endian 16-bit value. -/
def be16 (hi lo : Byte) : Nat :=
  hi.val * 256 + lo.val

/-- The store `ldata->temp_input = data[1] * 1000 + data[2] * 100`
(src/krx62.c line 115). -/
def writeTemp (ldata : DeviceData) (data : List Byte) : DeviceData :=
  { ldata with
    temp_input := ((byteAt data 1).val : Int) * 1000 + ((byteAt data 2).val : Int) * 100 }

/-- The store `ldata->fan_input[0] = be16_to_cpup(data + 3)`
(src/krx62.c line 116). -/
def writeFan0 (ldata : DeviceData) (data : List Byte) : DeviceData :=
  { ldata with
    fan_input := ldata.fan_input.set 0 ((be16 (byteAt data 3) (byteAt data 4) : Nat) : Int) }

/-- The store `ldata->fan_input[1] = be16_to_cpup(data + 5)`
(src/krx62.c line 117). -/
def writeFan1 (ldata : DeviceData) (data : List Byte) : DeviceData :=
  { ldata with
    fan_input := ldata.fan_input.set 1 ((be16 (byteAt data 5) (byteAt data 6) : Nat) : Int) }

/-- krx62_raw_event (src/krx62.c lines 101-119): if the report id differs from
STATUS_REPORT_ID or the size is below STATUS_MIN_BYTES the report is ignored
and 0 is returned; otherwise the three stores of lines 115-117 run in order and
0 is returned.  The result pairs the C return value with the device state after
the call. -/
def krx62_raw_event (ldata : DeviceData) (reportId : Nat) (data : List Byte)
    (size : Nat) : Int × DeviceData :=
  if reportId ≠ STATUS_REPORT_ID ∨ size < STATUS_MIN_BYTES then
    (0, ldata)
  else
    (0, writeFan1 (writeFan0 (writeTemp ldata data) data) data)

/-- The device state right after krx62_probe: devm_kzalloc (src/krx62.c
line 137) zero-initializes struct krx62_device_data, so temp_input and both
fan_input entries are 0. -/
def initState : DeviceData :=
  { temp_input := 0, fan_input := [0, 0] }

/-- The sixteen-byte example report of the spec:
[04, 1E, 32, 0C, 80, 03, 20, 00, ...]. -/
def sampleReport : List Byte :=
  [4, 0x1E, 0x32, 0x0C, 0x80, 0x03, 0x20, 0, 0, 0, 0, 0, 0, 0, 0, 0]

/- ------------------------------------------------------------------ -/
/- Claim theorems                                                      -/
/- ------------------------------------------------------------------ -/

/-- C1: krx62_raw_event always returns 0, and whenever the report id differs
from 4 or the size is below 16 bytes the device state is left completely
unchanged; hence the state is updated only for reports with id 4 and at least
16 bytes. -/
theorem krx62_raw_event_ignores_foreign (ldata : DeviceData) (reportId : Nat)
    (data : List Byte) (size : Nat) :
    (krx62_raw_event ldata reportId data size).1 = 0 ∧
    (reportId ≠ 4 ∨ size < 16 →
      (krx62_raw_event ldata reportId data size).2 = ldata) := by
  constructor
  · unfold krx62_raw_event
    split <;> rfl
  · intro h
    unfold krx62_raw_event
    rw [if_pos]
    exact h

/-- C1 witness: a report with id 3 and 16 bytes leaves the initial state
unchanged. -/
theorem krx62_raw_event_ignores_foreign_witness :
    (krx62_raw_event initState 3 sampleReport 16).2 = initState :=
  (krx62_raw_event_ignores_foreign initState 3 sampleReport 16).2
    (Or.inl (by decide))

/-- C2: for every valid report (id 4, size at least 16), the decoder stores
temperature byte[1]*1000 + byte[2]*100 into the device state. -/
theorem krx62_raw_event_temp_formula (ldata : DeviceData) (data : List Byte)
    (size : Nat) (hsize : 16 ≤ size) :
    ((krx62_raw_event ldata 4 data size).2).temp_input =
      ((byteAt data 1).val : Int) * 1000 + ((byteAt data 2).val : Int) * 100 := by
  unfold krx62_raw_event
  rw [if_neg]
  · rfl
  · rintro (h4 | hlt)
    · exact h4 rfl
    · simp only [STATUS_MIN_BYTES] at hlt
      omega

/-- C2 witness: on the example report [04, 1E, 32, 0C, 80, 03, 20, 00, ...]
the stored temperature is 35000. -/
theorem krx62_raw_event_temp_formula_witness :
    ((krx62_raw_event initState 4 sampleReport 16).2).temp_input = 35000 := by
  rw [krx62_raw_event_temp_formula initState sampleReport 16 (by decide)]
  decide

/-- C3: for every valid report (id 4, size at least 16) decoded from a state
whose fan array has its two entries, fan_input[0] is the big-endian 16-bit
value at bytes 3-4 and fan_input[1] the big-endian 16-bit value at bytes
5-6. -/
theorem krx62_raw_event_fan_formula (ldata : DeviceData) (data : List Byte)
    (size : Nat) (hsize : 16 ≤ size) (hlen : ldata.fan_input.length = 2) :
    ((krx62_raw_event ldata 4 data size).2).fan_input =
      [((be16 (byteAt data 3) (byteAt data 4) : Nat) : Int),
       ((be16 (byteAt data 5) (byteAt data 6) : Nat) : Int)] := by
  unfold krx62_raw_event
  rw [if_neg]
  · show (writeFan1 (writeFan0 (writeTemp ldata data) data) data).fan_input = _
    unfold writeFan1 writeFan0 writeTemp
    simp only
    match hl : ldata.fan_input with
    | [a, b] => rfl
    | [] => simp [hl] at hlen
    | [a] => simp [hl] at hlen
    | a :: b :: c :: rest => simp [hl] at hlen
  · rintro (h4 | hlt)
    · exact h4 rfl
    · simp only [STATUS_MIN_BYTES] at hlt
      omega

/-- C3 witness: on the example report the stored fan speeds are 3200 and
800. -/
theorem krx62_raw_event_fan_formula_witness :
    ((krx62_raw_event initState 4 sampleReport 16).2).fan_input = [3200, 800] := by
  rw [krx62_raw_event_fan_formula initState sampleReport 16 (by decide) (by decide)]
  decide


/- ------------------------------------------------------------------ -/
/- Helper lemmas (shared; not claim theorems)                          -/
/- ------------------------------------------------------------------ -/

/-- Setting both entries of a two-element list yields the two new values. -/
theorem set_pair_of_length_two (l : List Int) (hlen : l.length = 2) (a b : Int) :
    (l.set 0 a).set 1 b = [a, b] := by
  match l, hlen with
  | [x, y], _ => rfl

/-- On a valid report (id 4, size at least 16) krx62_raw_event returns 0 and
the state produced by the three stores of lines 115-117. -/
theorem raw_event_valid (ldata : DeviceData) (data : List Byte) (size : Nat)
    (hsize : 16 ≤ size) :
    krx62_raw_event ldata 4 data size =
      (0, writeFan1 (writeFan0 (writeTemp ldata data) data) data) := by
  unfold krx62_raw_event
  rw [if_neg]
  rintro (h4 | hlt)
  · exact h4 rfl
  · simp only [STATUS_MIN_BYTES] at hlt
    omega

/-- The full device state produced by a valid report, spelled out. -/
theorem raw_event_valid_state (ldata : DeviceData) (data : List Byte)
    (size : Nat) (hsize : 16 ≤ size) (hlen : ldata.fan_input.length = 2) :
    (krx62_raw_event ldata 4 data size).2 =
      { temp_input :=
          ((byteAt data 1).val : Int) * 1000 + ((byteAt data 2).val : Int) * 100,
        fan_input :=
          [((be16 (byteAt data 3) (byteAt data 4) : Nat) : Int),
           ((be16 (byteAt data 5) (byteAt data 6) : Nat) : Int)] } := by
  rw [raw_event_valid ldata data size hsize]
  show writeFan1 (writeFan0 (writeTemp ldata data) data) data = _
  unfold writeFan1 writeFan0 writeTemp
  simp only
  rw [set_pair_of_length_two ldata.fan_input hlen]

/- ------------------------------------------------------------------ -/
/- Claims C4 to C10                                                    -/
/- ------------------------------------------------------------------ -/

/-- C4 counterexample: a fan read at channel index 2 does not fail with
-EINVAL; the source indexes fan_input[2] with no bounds check, an
out-of-bounds array access. -/
theorem krx62_read_fan2_no_einval :
    krx62_read initState .fan 0 2 = ReadResult.oob ∧
    krx62_read initState .fan 0 2 ≠ ReadResult.err (-EINVAL) := by
  decide

/-- C4 amended: a read whose channel kind is outside {temp, fan} fails with
-EINVAL (for both the value and the label accessor) and, being pure, leaves
the device state unchanged; but a fan read with index outside the declared
range 0..1 is an unchecked out-of-bounds array access (undefined behavior),
not an -EINVAL failure. -/
theorem krx62_read_unsupported (ldata : DeviceData) (ty : HwmonSensorTypes)
    (attr channel : Nat) (hlen : ldata.fan_input.length = 2) :
    ((ty ≠ .temp ∧ ty ≠ .fan) →
      krx62_read ldata ty attr channel = .err (-EINVAL) ∧
      krx62_read_string ty attr channel = .err (-EINVAL)) ∧
    (ty = .fan → 2 ≤ channel →
      krx62_read ldata ty attr channel = .oob ∧
      krx62_read_string ty attr channel = .oob) := by
  constructor
  · rintro ⟨ht, hf⟩
    cases ty
    case temp => exact absurd rfl ht
    case fan => exact absurd rfl hf
    all_goals exact ⟨rfl, rfl⟩
  · rintro rfl hc
    have h1 : ldata.fan_input.get? channel = none := by
      rw [List.get?_eq_none]
      omega
    have h2 : krx62_fan_label.get? channel = none := by
      rw [List.get?_eq_none]
      show 2 ≤ channel
      omega
    constructor
    · unfold krx62_read
      rw [h1]
    · unfold krx62_read_string
      rw [h2]

/-- C4 witness: a power-channel read fails with -EINVAL, and a fan read at
index 5 hits the out-of-bounds access rather than -EINVAL. -/
theorem krx62_read_unsupported_witness :
    krx62_read initState .power 0 0 = .err (-EINVAL) ∧
    krx62_read initState .fan 0 5 = .oob := by
  have h1 := krx62_read_unsupported initState .power 0 0 (by decide)
  have h2 := krx62_read_unsupported initState .fan 0 5 (by decide)
  exact ⟨(h1.1 (by decide)).1, (h2.2 rfl (by decide)).1⟩

/-- C5: decoding a valid report and then reading each declared channel returns
exactly the values encoded in the report: the temperature formula on bytes 1-2
at the temperature channel, the big-endian word at bytes 3-4 at fan channel 0,
and the big-endian word at bytes 5-6 at fan channel 1. -/
theorem krx62_decode_read_roundtrip (ldata : DeviceData) (data : List Byte)
    (size attr : Nat) (hsize : 16 ≤ size) (hlen : ldata.fan_input.length = 2) :
    krx62_read (krx62_raw_event ldata 4 data size).2 .temp attr 0 =
      .ok (((byteAt data 1).val : Int) * 1000 + ((byteAt data 2).val : Int) * 100) ∧
    krx62_read (krx62_raw_event ldata 4 data size).2 .fan attr 0 =
      .ok ((be16 (byteAt data 3) (byteAt data 4) : Nat) : Int) ∧
    krx62_read (krx62_raw_event ldata 4 data size).2 .fan attr 1 =
      .ok ((be16 (byteAt data 5) (byteAt data 6) : Nat) : Int) := by
  rw [raw_event_valid_state ldata data size hsize hlen]
  exact ⟨rfl, rfl, rfl⟩

/-- C5 witness: decode the example report, then read temperature, fan 0 and
fan 1: the reads return 35000, 3200 and 800. -/
theorem krx62_decode_read_roundtrip_witness :
    krx62_read (krx62_raw_event initState 4 sampleReport 16).2 .temp 0 0 = .ok 35000 ∧
    krx62_read (krx62_raw_event initState 4 sampleReport 16).2 .fan 0 0 = .ok 3200 ∧
    krx62_read (krx62_raw_event initState 4 sampleReport 16).2 .fan 0 1 = .ok 800 := by
  have h := krx62_decode_read_roundtrip initState sampleReport 16 0
    (by decide) (by decide)
  refine ⟨?_, ?_, ?_⟩
  · rw [h.1]; decide
  · rw [h.2.1]; decide
  · rw [h.2.2]; decide

/-- C6: the compiled-in sensor table declares exactly three channels, one
temperature channel and two fan channels, in that fixed order, and the label
accessor returns "Coolant", "Fans" and "Pump" for them respectively. -/
theorem krx62_sensor_table_fixed :
    declaredChannels = [(.temp, 0), (.fan, 0), (.fan, 1)] ∧
    declaredChannels.length = 3 ∧
    declaredChannels.map (fun c => krx62_read_string c.1 0 c.2) =
      [.ok "Coolant", .ok "Fans", .ok "Pump"] := by
  decide

/-- C7: the state devm_kzalloc produces at probe time is all zero, and before
any report arrives every declared-channel read succeeds with value 0 rather
than failing. -/
theorem krx62_initial_reads_zero :
    initState.temp_input = 0 ∧ initState.fan_input = [0, 0] ∧
    declaredChannels.map (fun c => krx62_read initState c.1 0 c.2) =
      [.ok 0, .ok 0, .ok 0] := by
  decide

/-- C8: krx62_is_visible returns the read-only mode 0444 for every (type,
attribute, channel) triple, and that mode has no write bits (0222) set. -/
theorem krx62_channels_read_only (ty : HwmonSensorTypes) (attr channel : Nat) :
    krx62_is_visible ty attr channel = 0o444 ∧
    krx62_is_visible ty attr channel &&& 0o222 = 0 :=
  ⟨rfl, by show (0o444 : Nat) &&& 0o222 = 0; decide⟩

/-- The device states a concurrent reader can observe while krx62_raw_event
processes a valid report: the three stores of lines 115-117 are separate,
unsynchronized writes (the source itself notes "FIXME missing locking" at line
114), so the state after each individual store is observable. -/
def decodeIntermediates (ldata : DeviceData) (data : List Byte) : List DeviceData :=
  [ldata,
   writeTemp ldata data,
   writeFan0 (writeTemp ldata data) data,
   writeFan1 (writeFan0 (writeTemp ldata data) data) data]

/-- The complete snapshot a report encodes. -/
def snapshotOf (data : List Byte) : DeviceData :=
  { temp_input :=
      ((byteAt data 1).val : Int) * 1000 + ((byteAt data 2).val : Int) * 100,
    fan_input :=
      [((be16 (byteAt data 3) (byteAt data 4) : Nat) : Int),
       ((be16 (byteAt data 5) (byteAt data 6) : Nat) : Int)] }

/-- A second concrete valid report: temperature 10000, fans 100 and 200. -/
def reportA : List Byte :=
  [4, 10, 0, 0, 100, 0, 200, 0, 0, 0, 0, 0, 0, 0, 0, 0]

/-- C9: the whole-record update is not atomic.  After reportA has been fully
decoded, decoding the example report is interruptible between the store to
temp_input (line 115) and the stores to fan_input (lines 116-117): the
intermediate state carries the temperature of the new report together with
both fan speeds of the old one, a state equal to neither report's snapshot. -/
theorem krx62_torn_update_observable :
    (krx62_raw_event initState 4 reportA 16).2 = snapshotOf reportA ∧
    (writeTemp (snapshotOf reportA) sampleReport ∈
        decodeIntermediates (snapshotOf reportA) sampleReport ∧
      (writeTemp (snapshotOf reportA) sampleReport).temp_input =
        (snapshotOf sampleReport).temp_input ∧
      (writeTemp (snapshotOf reportA) sampleReport).fan_input =
        (snapshotOf reportA).fan_input ∧
      writeTemp (snapshotOf reportA) sampleReport ≠ snapshotOf reportA ∧
      writeTemp (snapshotOf reportA) sampleReport ≠ snapshotOf sampleReport) := by
  decide

/-- The bounds invariant of C10: temperature in [0, 280500], the fan array of
length 2 with every entry in [0, 65535]. -/
def boundedState (st : DeviceData) : Prop :=
  0 ≤ st.temp_input ∧ st.temp_input ≤ 280500 ∧
  st.fan_input.length = 2 ∧ ∀ v ∈ st.fan_input, 0 ≤ v ∧ v ≤ 65535

instance (st : DeviceData) : Decidable (boundedState st) := by
  unfold boundedState
  infer_instance

/-- Running a sequence of raw-event deliveries (report id, buffer, size) from a
state. -/
def runEvents (st : DeviceData) (evs : List (Nat × List Byte × Nat)) : DeviceData :=
  evs.foldl (fun s e => (krx62_raw_event s e.1 e.2.1 e.2.2).2) st

/-- One krx62_raw_event call preserves the bounds invariant. -/
theorem boundedState_raw_event (st : DeviceData) (r : Nat) (d : List Byte)
    (n : Nat) (h : boundedState st) :
    boundedState (krx62_raw_event st r d n).2 := by
  obtain ⟨h0, h1, h2, h3⟩ := h
  unfold krx62_raw_event
  split
  · exact ⟨h0, h1, h2, h3⟩
  · refine ⟨?_, ?_, ?_, ?_⟩
    · show (0 : Int) ≤ ((byteAt d 1).val : Int) * 1000 + ((byteAt d 2).val : Int) * 100
      positivity
    · show ((byteAt d 1).val : Int) * 1000 + ((byteAt d 2).val : Int) * 100 ≤ 280500
      have ha := (byteAt d 1).is_lt
      have hb := (byteAt d 2).is_lt
      omega
    · show ((st.fan_input.set 0 _).set 1 _).length = 2
      simp [h2]
    · intro v hv
      simp only [writeFan1, writeFan0, writeTemp] at hv
      rcases List.mem_or_eq_of_mem_set hv with hv1 | rfl
      · rcases List.mem_or_eq_of_mem_set hv1 with hv2 | rfl
        · exact h3 v hv2
        · have hc := (byteAt d 3).is_lt
          have hd := (byteAt d 4).is_lt
          unfold be16
          constructor
          · positivity
          · push_cast
            omega
      · have hc := (byteAt d 5).is_lt
        have hd := (byteAt d 6).is_lt
        unfold be16
        constructor
        · positivity
        · push_cast
          omega

/-- C10: from the zero-initialized state, after any sequence of raw-event
deliveries the stored temperature lies in [0, 280500] and each stored fan
speed lies in [0, 65535]; moreover a single decode step preserves these
bounds from any bounded state (reads never mutate the state at all). -/
theorem krx62_state_bounds :
    (∀ evs, boundedState (runEvents initState evs)) ∧
    (∀ st r d n, boundedState st → boundedState (krx62_raw_event st r d n).2) := by
  constructor
  · have key : ∀ evs st, boundedState st → boundedState (runEvents st evs) := by
      intro evs
      induction evs with
      | nil => intro st h; exact h
      | cons e rest ih =>
        intro st h
        exact ih _ (boundedState_raw_event st e.1 e.2.1 e.2.2 h)
    intro evs
    exact key evs initState (by decide)
  · exact fun st r d n h => boundedState_raw_event st r d n h

/-- C10 witness: the state after decoding the example report from the initial
state satisfies the bounds invariant. -/
theorem krx62_state_bounds_witness :
    boundedState (krx62_raw_event initState 4 sampleReport 16).2 :=
  krx62_state_bounds.2 initState 4 sampleReport 16 (by decide)

end Krx62
